import Mathlib

/-!
Shallow embedding of the vault HTTP client in `src/client/mod.rs`.

Modelling conventions:

* `std::time::Duration` is a pair of a second count (`u64`) and a sub-second
  nanosecond count (`u32`), both as `Nat` (no arithmetic overflows arise).
* URLs are strings.  The url crate's `Url::join`, at the use sites in this
  file, always joins an absolute `/v1/...` path onto a bare host URL, which
  resolves to base-plus-path concatenation.
* The `client: reqwest::Client` handle stored on `VaultClient` is replaced by
  an explicit `Network` argument given to each operation: a function from the
  fully built request to what the wire does (refuse the connection, or answer
  with a status and a body).  Functions that perform network traffic also
  return the list of requests they issued, in order, so that claims about
  which calls reach the network are statable.
* Rust generics bounded by `DeserializeOwned` become explicit decoder
  arguments (`Decoder α`), the dictionary-passing reading of the trait bound;
  the argument stands for `serde_json::from_str` / `from_reader` at `α`.
* Byte strings (`Vec<u8>`, `&[u8]`) are lists of naturals below 256.
* `HashMap<String, String>` fields are association lists.
* Rust `format!` messages that interpolate a `Debug` rendering of a whole
  response value abbreviate that rendering (the exact text is not load
  bearing for any claim); the message of `handle_hyper_response` keeps the
  status code and the eagerly read body, which claims do mention.
-/

deriving instance DecidableEq for Except

/-- Rust `std::time::Duration`: whole seconds plus a sub-second nanosecond
count (invariant `nanos < 10^9`, maintained by the constructors used here). -/
structure Duration where
  secs : Nat
  nanos : Nat
deriving DecidableEq

/-- Rust `Duration::from_secs`: whole seconds, zero nanoseconds. -/
def Duration.from_secs (s : Nat) : Duration := ⟨s, 0⟩

/-- Rust `Duration::as_secs`: the whole-second part, dropping nanoseconds. -/
def Duration.as_secs (d : Duration) : Nat := d.secs

/-- Lease duration newtype `VaultDuration(pub Duration)`; the tuple field `.0`
is named `dur`. -/
structure VaultDuration where
  dur : Duration
deriving DecidableEq

/-- Rust `VaultDuration::seconds`. -/
def VaultDuration.seconds (s : Nat) : VaultDuration := ⟨Duration.from_secs s⟩

/-- Rust `VaultDuration::minutes`. -/
def VaultDuration.minutes (m : Nat) : VaultDuration := VaultDuration.seconds (m * 60)

/-- Rust `VaultDuration::hours`. -/
def VaultDuration.hours (h : Nat) : VaultDuration := VaultDuration.minutes (h * 60)

/-- Rust `VaultDuration::days`. -/
def VaultDuration.days (d : Nat) : VaultDuration := VaultDuration.hours (d * 24)

/-- Wire encoding of a duration (`impl Serialize for VaultDuration`):
`serializer.serialize_u64(self.0.as_secs())`. -/
def encode_duration_seconds (d : VaultDuration) : Nat := Duration.as_secs d.dur

/-- Wire decoding of a duration (`impl Deserialize for VaultDuration`, via
`VaultDurationVisitor::visit_u64`): `VaultDuration(Duration::from_secs(value))`. -/
def decode_duration_seconds (value : Nat) : VaultDuration := ⟨Duration.from_secs value⟩

/-- chrono `NaiveDateTime` wrapped by `VaultNaiveDateTime`, abstracted to epoch
seconds. -/
structure VaultNaiveDateTime where
  epochSecs : Int
deriving DecidableEq

/-- chrono `DateTime<FixedOffset>` wrapped by `VaultDateTime`, abstracted to an
instant together with its explicit offset. -/
structure VaultDateTime where
  epochSecs : Int
  offsetSecs : Int
deriving DecidableEq

/-- Vault auth block (`struct Auth`). -/
structure Auth where
  client_token : String
  accessor : Option String
  policies : List String
  metadata : Option (List (String × String))
  lease_duration : Option VaultDuration
  renewable : Bool
deriving DecidableEq

/-- Information provided to retrieve a wrapped response (`struct WrapInfo`). -/
structure WrapInfo where
  ttl : VaultDuration
  token : String
  creation_time : VaultDateTime
  wrapped_accessor : Option String
deriving DecidableEq

/-- Generic response envelope (`struct VaultResponse<D>`).  The `request_id`
field sits behind the `vault_0.6.1` feature flag and is omitted. -/
structure VaultResponse (D : Type) where
  lease_id : Option String
  renewable : Option Bool
  lease_duration : Option VaultDuration
  data : Option D
  warnings : Option (List String)
  auth : Option Auth
  wrap_info : Option WrapInfo
deriving DecidableEq

/-- Token data payload (`struct TokenData`), cached by `VaultClient::new`. -/
structure TokenData where
  accessor : Option String
  creation_time : VaultNaiveDateTime
  creation_ttl : Option VaultDuration
  display_name : String
  explicit_max_ttl : Option VaultDuration
  id : String
  last_renewal_time : Option VaultDuration
  meta : Option (List (String × String))
  num_uses : Nat
  orphan : Bool
  path : String
  policies : List String
  renewable : Option Bool
  role : Option String
  ttl : VaultDuration
deriving DecidableEq

/-- Secret payload (`struct SecretData`). -/
structure SecretData where
  value : String
deriving DecidableEq

/-- Transit decrypted payload (`struct TransitDecryptedData`). -/
structure TransitDecryptedData where
  plaintext : String
deriving DecidableEq

/-- Transit encrypted payload (`struct TransitEncryptedData`). -/
structure TransitEncryptedData where
  ciphertext : String
deriving DecidableEq

/-- The `enum HttpVerb` accepted by the escape-hatch dispatcher. -/
inductive HttpVerb where
  | GET
  | POST
  | PUT
  | DELETE
  | LIST
deriving DecidableEq

/-- Endpoint response variants (`enum EndpointResponse<D>`). -/
inductive EndpointResponse (D : Type) where
  | VaultResponse (res : VaultResponse D)
  | Empty
deriving DecidableEq

/-- URLs, as strings. -/
abbrev Url := String

/-- The url crate's `Url::join` at the use sites of this file: every endpoint
is an absolute `/v1/...` path joined onto a bare host URL, which resolves to
concatenation of host and path. -/
def Url.join (base : Url) (path : String) : Url := base ++ path

/-- reqwest `Method`; list operations use the non-standard extension verb. -/
inductive Method where
  | Get
  | Post
  | Put
  | Delete
  | Extension (verb : String)
deriving DecidableEq

/-- A fully built outgoing HTTP request: verb, resolved URL, headers in the
order the builder added them, and body (empty string when none was set). -/
structure Request where
  method : Method
  url : Url
  headers : List (String × String)
  body : String
deriving DecidableEq

/-- A received HTTP response: status code and eagerly read body text. -/
structure HttpResponse where
  status : Nat
  body : String
deriving DecidableEq

/-- What the wire does with one request: refuse the connection (connection
refused / unreachable / timeout establishing the connection), or answer. -/
inductive ConnResult where
  | refused
  | answered (status : Nat) (body : String)
deriving DecidableEq

/-- The behaviour of the network, one request at a time. -/
abbrev Network := Request → ConnResult

/-- The reqwest error produced by `send()` when no response was obtained. -/
inductive ReqwestError where
  | connectionFailed
deriving DecidableEq

/-- reqwest `RequestBuilder::send`: either a low-level connection error or a
response. -/
def sendReq (net : Network) (r : Request) : Except ReqwestError HttpResponse :=
  match net r with
  | ConnResult.refused => Except.error ReqwestError.connectionFailed
  | ConnResult.answered s b => Except.ok ⟨s, b⟩

/-- Decode failures of the base64 crate (payload offsets elided). -/
inductive Base64Error where
  | InvalidByte
  | InvalidLength
deriving DecidableEq

/-- The standard base64 alphabet. -/
def b64Alphabet : List Char :=
  "ABCDEFGHIJKLMNOPQRSTUVWXYZabcdefghijklmnopqrstuvwxyz0123456789+/".data

/-- Character for a sextet value. -/
def b64Char (n : Nat) : Char := b64Alphabet.getD n 'A'

/-- Standard base64 encoding with padding, three input bytes per four output
characters (`base64::encode`). -/
def base64encodeChunks : List Nat → List Char
  | [] => []
  | [a] => [b64Char (a / 4), b64Char (a % 4 * 16), '=', '=']
  | [a, b] => [b64Char (a / 4), b64Char (a % 4 * 16 + b / 16), b64Char (b % 16 * 4), '=']
  | a :: b :: c :: rest =>
      b64Char (a / 4) :: b64Char (a % 4 * 16 + b / 16) ::
      b64Char (b % 16 * 4 + c / 64) :: b64Char (c % 64) :: base64encodeChunks rest

/-- `base64::encode` on a byte string. -/
def base64encode (bytes : List Nat) : String := ⟨base64encodeChunks bytes⟩

/-- Index of a character in the base64 alphabet. -/
def b64ValueAux (c : Char) : List Char → Nat → Option Nat
  | [], _ => none
  | x :: rest, i => if x = c then some i else b64ValueAux c rest (i + 1)

/-- Sextet value of an alphabet character, `none` for a foreign character. -/
def b64Value (c : Char) : Option Nat := b64ValueAux c b64Alphabet 0

/-- Standard base64 decoding with padding (`base64::decode`): four characters
per three output bytes, padding only at the very end, foreign characters and
ragged lengths rejected. -/
def base64decodeChunks : List Char → Except Base64Error (List Nat)
  | [] => Except.ok []
  | a :: b :: c :: d :: rest =>
    (match b64Value a, b64Value b with
     | some va, some vb =>
       if c = '=' then
         (if d = '=' ∧ rest = [] then Except.ok [va * 4 + vb / 16]
          else Except.error Base64Error.InvalidByte)
       else
         (match b64Value c with
          | some vc =>
            if d = '=' then
              (if rest = [] then Except.ok [va * 4 + vb / 16, vb % 16 * 16 + vc / 4]
               else Except.error Base64Error.InvalidByte)
            else
              (match b64Value d with
               | some vd =>
                 (match base64decodeChunks rest with
                  | Except.ok tail =>
                      Except.ok ((va * 4 + vb / 16) :: (vb % 16 * 16 + vc / 4) ::
                                 (vc % 4 * 64 + vd) :: tail)
                  | Except.error e => Except.error e)
               | none => Except.error Base64Error.InvalidByte)
          | none => Except.error Base64Error.InvalidByte)
     | _, _ => Except.error Base64Error.InvalidByte)
  | _ => Except.error Base64Error.InvalidLength

/-- `base64::decode` on a string. -/
def base64decode (s : String) : Except Base64Error (List Nat) := base64decodeChunks s.data

/-- Modelled from the spec: the library error enum lives in
`src/client/error.rs`, which is not among the provided sources.  `mod.rs`
constructs only `Error::Vault` directly and relies on the enum's `From`
conversions (used by `try!` / `?`) for reqwest, serde_json and base64 errors,
giving the wrapper constructors below.  The spec's §7 taxonomy additionally
names `Forbidden`, `MissingWrapInfo`, `AllHostsUnreachable` and
`RemoteRejected`, included here so that the claims mentioning them can be
stated; `mod.rs` never produces them. -/
inductive Error where
  | Vault (msg : String)
  | Reqwest (e : ReqwestError)
  | Serde (msg : String)
  | Base64 (e : Base64Error)
  | Forbidden
  | MissingWrapInfo
  | AllHostsUnreachable
  | RemoteRejected (status : Nat) (body : String)
deriving DecidableEq

/-- `StatusCode::is_success`: the 2xx range. -/
def statusIsSuccess (s : Nat) : Bool := decide (200 ≤ s) && decide (s < 300)

/-- The `format!` message `handle_hyper_response` builds for a non-2xx
response: `Vault request failed: {:?}, error message: `body``, with the
`Debug` rendering of the response abbreviated to its status code. -/
def vault_request_failed_msg (status : Nat) (body : String) : String :=
  "Vault request failed: Response [status " ++ toString status ++
    "], error message: `" ++ body ++ "`"

/-- Rust `handle_hyper_response`: propagate a connection-level error (the
`try!(res)` with the `From<reqwest::Error>` conversion), pass a 2xx response
through unchanged, and turn any other status into `Error::Vault` carrying the
eagerly read body. -/
def handle_hyper_response (res : Except ReqwestError HttpResponse) : Except Error HttpResponse :=
  match res with
  | Except.error e => Except.error (Error.Reqwest e)
  | Except.ok r =>
    if statusIsSuccess r.status then Except.ok r
    else Except.error (Error.Vault (vault_request_failed_msg r.status r.body))

/-- The `DeserializeOwned` dictionary for `α`: `serde_json::from_str` at `α`. -/
abbrev Decoder (α : Type) : Type := String → Except String α

/-- Rust `parse_vault_response`: decode the whole body
(`serde_json::from_reader`), converting the serde error via `?`. -/
def parse_vault_response {α : Type} (dec : Decoder α) (res : HttpResponse) : Except Error α :=
  match dec res.body with
  | Except.ok v => Except.ok v
  | Except.error e => Except.error (Error.Serde e)

/-- Rust `parse_endpoint_response`: a zero-length body is
`EndpointResponse::Empty`; anything else is decoded as a `VaultResponse`. -/
def parse_endpoint_response {D : Type} (dec : Decoder (VaultResponse D)) (res : HttpResponse) :
    Except Error (EndpointResponse D) :=
  if res.body = "" then Except.ok EndpointResponse.Empty
  else
    match dec res.body with
    | Except.ok v => Except.ok (EndpointResponse.VaultResponse v)
    | Except.error e => Except.error (Error.Serde e)

/-- `struct VaultClient<T>`: host URL, access token, and the cached response
data.  The `client: reqwest::Client` field is modelled by the `Network`
argument each operation receives. -/
structure VaultClient (T : Type) where
  host : Url
  token : String
  data : Option (VaultResponse T)
deriving DecidableEq

/-- Private helper `get`: GET with the token and JSON content-type headers, and
the wrap-TTL header exactly when `wrap_ttl` is supplied. -/
def VaultClient.get {T : Type} (c : VaultClient T) (endpoint : String)
    (wrap_ttl : Option String) (net : Network) : Except Error HttpResponse × List Request :=
  let h := Url.join c.host endpoint
  match wrap_ttl with
  | some w =>
    let r : Request := ⟨Method.Get, h,
      [("X-Vault-Token", c.token), ("Content-Type", "application/json"),
       ("X-Vault-Wrap-TTL", w)], ""⟩
    (handle_hyper_response (sendReq net r), [r])
  | none =>
    let r : Request := ⟨Method.Get, h,
      [("X-Vault-Token", c.token), ("Content-Type", "application/json")], ""⟩
    (handle_hyper_response (sendReq net r), [r])

/-- Private helper `delete`: DELETE with the token and JSON content-type
headers (no wrap-TTL parameter exists for it). -/
def VaultClient.delete {T : Type} (c : VaultClient T) (endpoint : String) (net : Network) :
    Except Error HttpResponse × List Request :=
  let r : Request := ⟨Method.Delete, Url.join c.host endpoint,
    [("X-Vault-Token", c.token), ("Content-Type", "application/json")], ""⟩
  (handle_hyper_response (sendReq net r), [r])

/-- Private helper `post`: POST with the token and JSON content-type headers,
the wrap-TTL header exactly when supplied, and the body (empty when `None`). -/
def VaultClient.post {T : Type} (c : VaultClient T) (endpoint : String)
    (body : Option String) (wrap_ttl : Option String) (net : Network) :
    Except Error HttpResponse × List Request :=
  let h := Url.join c.host endpoint
  let bodyStr := match body with | some b => b | none => ""
  match wrap_ttl with
  | some w =>
    let r : Request := ⟨Method.Post, h,
      [("X-Vault-Token", c.token), ("Content-Type", "application/json"),
       ("X-Vault-Wrap-TTL", w)], bodyStr⟩
    (handle_hyper_response (sendReq net r), [r])
  | none =>
    let r : Request := ⟨Method.Post, h,
      [("X-Vault-Token", c.token), ("Content-Type", "application/json")], bodyStr⟩
    (handle_hyper_response (sendReq net r), [r])

/-- Private helper `put`: like `post` with the PUT method. -/
def VaultClient.put {T : Type} (c : VaultClient T) (endpoint : String)
    (body : Option String) (wrap_ttl : Option String) (net : Network) :
    Except Error HttpResponse × List Request :=
  let h := Url.join c.host endpoint
  let bodyStr := match body with | some b => b | none => ""
  match wrap_ttl with
  | some w =>
    let r : Request := ⟨Method.Put, h,
      [("X-Vault-Token", c.token), ("Content-Type", "application/json"),
       ("X-Vault-Wrap-TTL", w)], bodyStr⟩
    (handle_hyper_response (sendReq net r), [r])
  | none =>
    let r : Request := ⟨Method.Put, h,
      [("X-Vault-Token", c.token), ("Content-Type", "application/json")], bodyStr⟩
    (handle_hyper_response (sendReq net r), [r])

/-- Private helper `list`: like `post` but with the non-standard extension
verb `LIST`. -/
def VaultClient.list {T : Type} (c : VaultClient T) (endpoint : String)
    (body : Option String) (wrap_ttl : Option String) (net : Network) :
    Except Error HttpResponse × List Request :=
  let h := Url.join c.host endpoint
  let bodyStr := match body with | some b => b | none => ""
  match wrap_ttl with
  | some w =>
    let r : Request := ⟨Method.Extension "LIST", h,
      [("X-Vault-Token", c.token), ("Content-Type", "application/json"),
       ("X-Vault-Wrap-TTL", w)], bodyStr⟩
    (handle_hyper_response (sendReq net r), [r])
  | none =>
    let r : Request := ⟨Method.Extension "LIST", h,
      [("X-Vault-Token", c.token), ("Content-Type", "application/json")], bodyStr⟩
    (handle_hyper_response (sendReq net r), [r])

/-- `VaultClient::new`: construct from an existing token.  Performs the
`/v1/auth/token/lookup-self` round-trip — a GET carrying only the token header
— and caches the decoded `VaultResponse<TokenData>`.  The generic
`U: TryInto<Url>` parameter is instantiated at an already parsed `Url`. -/
def VaultClient.new (host : Url) (token : String)
    (dec : Decoder (VaultResponse TokenData)) (net : Network) :
    Except Error (VaultClient TokenData) × List Request :=
  let r : Request := ⟨Method.Get, Url.join host "/v1/auth/token/lookup-self",
    [("X-Vault-Token", token)], ""⟩
  ((match handle_hyper_response (sendReq net r) with
    | Except.error e => Except.error e
    | Except.ok res =>
      match parse_vault_response dec res with
      | Except.error e => Except.error e
      | Except.ok decoded => Except.ok (⟨host, token, some decoded⟩ : VaultClient TokenData)),
   [r])

/-- `VaultClient::new_no_lookup`: store host and token, leave the cached data
absent, and perform no network traffic at all (the token is assumed to be
single use). -/
def VaultClient.new_no_lookup (host : Url) (token : String) :
    Except Error (VaultClient Unit) × List Request :=
  (Except.ok (⟨host, token, none⟩ : VaultClient Unit), [])

/-- `VaultClient::renew`: POST to `/v1/auth/token/renew-self`, decode the
envelope, and — only when cached data is present — overwrite its `auth` field
with the one from the response. -/
def VaultClient.renew {T : Type} (c : VaultClient T) (dec : Decoder (VaultResponse T))
    (net : Network) : Except Error Unit × VaultClient T × List Request :=
  let pr := VaultClient.post c "/v1/auth/token/renew-self" none none net
  let outcome : Except Error Unit × VaultClient T :=
    match pr.1 with
    | Except.error e => (Except.error e, c)
    | Except.ok res =>
      match parse_vault_response dec res with
      | Except.error e => (Except.error e, c)
      | Except.ok vault_res =>
        match c.data with
        | some d => (Except.ok (), { c with data := some { d with auth := vault_res.auth } })
        | none => (Except.ok (), c)
  (outcome.1, outcome.2, pr.2)

/-- Character-level form of `str::replace("\n", "\\n")` at its single-character
needle: a newline becomes backslash-n, every other character passes through
verbatim. -/
def escapeChars : List Char → List Char
  | [] => []
  | ch :: rest => (if ch = '\n' then ['\\', 'n'] else [ch]) ++ escapeChars rest

/-- `VaultClient::escape`. -/
def VaultClient.escape {T : Type} (_c : VaultClient T) (input : String) : String :=
  ⟨escapeChars input.data⟩

/-- `VaultClient::set_secret`: POST to `/v1/secret/{key}` with the value
spliced into the `value` JSON template after `escape`. -/
def VaultClient.set_secret {T : Type} (c : VaultClient T) (key : String) (value : String)
    (net : Network) : Except Error Unit × List Request :=
  let pr := VaultClient.post c ("/v1/secret/" ++ key)
    (some ("\x7b\"value\": \"" ++ VaultClient.escape c value ++ "\"\x7d")) none net
  ((match pr.1 with
    | Except.error e => Except.error e
    | Except.ok _ => Except.ok ()),
   pr.2)

/-- `str::starts_with` for a string pattern. -/
def startsWithStr (s pat : String) : Bool := List.isPrefixOf pat.data s.data

/-- Fuel-bounded worker for `trim_left_matches`: each unit of fuel removes one
leading copy of the (nonempty) pattern, so `l.length` fuel always suffices. -/
def trimLeftMatchesFuel (pat : List Char) : Nat → List Char → List Char
  | 0, l => l
  | Nat.succ fuel, l =>
    if List.isPrefixOf pat l && !List.isEmpty pat then
      trimLeftMatchesFuel pat fuel (List.drop pat.length l)
    else l

/-- `str::trim_left_matches` (nowadays `trim_start_matches`): repeatedly remove
the pattern from the front of the string. -/
def trim_left_matches (s pat : String) : String :=
  ⟨trimLeftMatchesFuel pat.data s.data.length s.data⟩

/-- `VaultClient::transit_encrypt`: base64-encode the plaintext, POST it to the
transit encrypt endpoint, require the returned ciphertext to start with the
fixed `vault:v1:` version prefix, remove leading copies of that prefix with
`trim_left_matches`, and base64-decode the remainder. -/
def VaultClient.transit_encrypt {T : Type} (c : VaultClient T) (mountpoint : Option String)
    (key : String) (plaintext : List Nat) (dec : Decoder (VaultResponse TransitEncryptedData))
    (net : Network) : Except Error (List Nat) × List Request :=
  let path := mountpoint.getD "transit"
  let encoded_plaintext := base64encode plaintext
  let pr := VaultClient.post c ("/v1/" ++ path ++ "/encrypt/" ++ key)
    (some ("\x7b\"plaintext\": \"" ++ encoded_plaintext ++ "\"\x7d")) none net
  ((match pr.1 with
    | Except.error e => Except.error e
    | Except.ok res =>
      match parse_vault_response dec res with
      | Except.error e => Except.error e
      | Except.ok decoded =>
        match decoded.data with
        | some d =>
          let payload := d.ciphertext
          if !(startsWithStr payload "vault:v1:") then
            Except.error (Error.Vault ("Unrecognized ciphertext format: `" ++ payload ++ "`"))
          else
            (match base64decode (trim_left_matches payload "vault:v1:") with
             | Except.ok encrypted => Except.ok encrypted
             | Except.error e => Except.error (Error.Base64 e))
        | none => Except.error (Error.Vault "No ciphertext found in response")),
   pr.2)

/-- `VaultClient::transit_decrypt`: base64-encode the ciphertext bytes, prepend
the fixed `vault:v1:` prefix, POST to the transit decrypt endpoint, and
base64-decode the returned plaintext field directly. -/
def VaultClient.transit_decrypt {T : Type} (c : VaultClient T) (mountpoint : Option String)
    (key : String) (ciphertext : List Nat) (dec : Decoder (VaultResponse TransitDecryptedData))
    (net : Network) : Except Error (List Nat) × List Request :=
  let path := mountpoint.getD "transit"
  let encoded_ciphertext := "vault:v1:" ++ base64encode ciphertext
  let pr := VaultClient.post c ("/v1/" ++ path ++ "/decrypt/" ++ key)
    (some ("\x7b\"ciphertext\": \"" ++ encoded_ciphertext ++ "\"\x7d")) none net
  ((match pr.1 with
    | Except.error e => Except.error e
    | Except.ok res =>
      match parse_vault_response dec res with
      | Except.error e => Except.error e
      | Except.ok decoded =>
        match decoded.data with
        | some d =>
          (match base64decode d.plaintext with
           | Except.ok plain => Except.ok plain
           | Except.error e => Except.error (Error.Base64 e))
        | none => Except.error (Error.Vault "No plaintext found in response")),
   pr.2)

/-- Follows the spec's words (§4.6) for the encrypt response handling, for
comparison with the code: validate the fixed `vault:v1:` prefix, strip the
prefix — one copy — and base64-decode the remainder into the returned bytes. -/
def transit_encrypt_response_spec (payload : String) : Except Error (List Nat) :=
  if !(startsWithStr payload "vault:v1:") then
    Except.error (Error.Vault ("Unrecognized ciphertext format: `" ++ payload ++ "`"))
  else
    match base64decode ⟨List.drop 9 payload.data⟩ with
    | Except.ok encrypted => Except.ok encrypted
    | Except.error e => Except.error (Error.Base64 e)

/-- `VaultClient::call_endpoint`: the escape-hatch verb dispatcher.  Maps each
verb to the corresponding transport helper and classifies the body via
`parse_endpoint_response`. -/
def VaultClient.call_endpoint {T D : Type} (c : VaultClient T)
    (dec : Decoder (VaultResponse D)) (http_verb : HttpVerb) (endpoint : String)
    (wrap_ttl : Option String) (body : Option String) (net : Network) :
    Except Error (EndpointResponse D) × List Request :=
  let url := "/v1/" ++ endpoint
  match http_verb with
  | HttpVerb.GET =>
    let pr := VaultClient.get c url wrap_ttl net
    ((match pr.1 with
      | Except.error e => Except.error e
      | Except.ok res => parse_endpoint_response dec res), pr.2)
  | HttpVerb.POST =>
    let pr := VaultClient.post c url body wrap_ttl net
    ((match pr.1 with
      | Except.error e => Except.error e
      | Except.ok res => parse_endpoint_response dec res), pr.2)
  | HttpVerb.PUT =>
    let pr := VaultClient.put c url body wrap_ttl net
    ((match pr.1 with
      | Except.error e => Except.error e
      | Except.ok res => parse_endpoint_response dec res), pr.2)
  | HttpVerb.DELETE =>
    let pr := VaultClient.delete c url net
    ((match pr.1 with
      | Except.error e => Except.error e
      | Except.ok res => parse_endpoint_response dec res), pr.2)
  | HttpVerb.LIST =>
    let pr := VaultClient.list c url body wrap_ttl net
    ((match pr.1 with
      | Except.error e => Except.error e
      | Except.ok res => parse_endpoint_response dec res), pr.2)

/-- `VaultClient::get_wrapping_token_for_endpoint`: call the endpoint with the
wrap TTL set and extract the single-use wrapping token; a missing `wrap_info`
or an empty response is an `Error::Vault` (the `Debug` interpolation of the
response in the first message is elided). -/
def VaultClient.get_wrapping_token_for_endpoint {T : Type} (c : VaultClient T)
    (dec : Decoder (VaultResponse Unit)) (http_verb : HttpVerb) (endpoint : String)
    (wrap_ttl : String) (body : Option String) (net : Network) :
    Except Error String × List Request :=
  let pr := VaultClient.call_endpoint c dec http_verb endpoint (some wrap_ttl) body net
  ((match pr.1 with
    | Except.error e => Except.error e
    | Except.ok (EndpointResponse.VaultResponse res) =>
      match res.wrap_info with
      | some wrap_info => Except.ok wrap_info.token
      | none => Except.error (Error.Vault "wrap_info is missing in response")
    | Except.ok EndpointResponse.Empty =>
      Except.error (Error.Vault "Received an empty response")),
   pr.2)

/-- Reference JSON string-literal reader: consumes characters up to an
unescaped closing quote, interpreting the standard single-character escapes,
and returns the decoded characters together with the remainder; the `\uXXXX`
form (not needed here) and raw control characters are rejected. -/
def readJsonStringChars : List Char → Option (List Char × List Char)
  | [] => none
  | '"' :: rest => some ([], rest)
  | '\\' :: esc :: rest =>
    (match esc with
     | '"' => some '"'
     | '\\' => some '\\'
     | '/' => some '/'
     | 'n' => some '\n'
     | 't' => some '\t'
     | 'r' => some '\x0d'
     | 'b' => some '\x08'
     | 'f' => some '\x0c'
     | _ => none).bind
      (fun decodedChar =>
        (readJsonStringChars rest).map
          (fun (p : List Char × List Char) => (decodedChar :: p.1, p.2)))
  | ch :: rest =>
    if ch.toNat < 32 then none
    else
      (readJsonStringChars rest).map
        (fun (p : List Char × List Char) => (ch :: p.1, p.2))

/-- Consume an exact expected character sequence from the front. -/
def stripPrefixChars : List Char → List Char → Option (List Char)
  | [], l => some l
  | _ :: _, [] => none
  | p :: ps, ch :: cs => if ch = p then stripPrefixChars ps cs else none

/-- Reference decoder for the exact body template `set_secret` sends: accepts
precisely a `value`-keyed object with a JSON string (the template's whitespace
is fixed) and returns the decoded string value. -/
def parseSecretBody (s : String) : Option String :=
  match stripPrefixChars ("\x7b\"value\": \"".data) s.data with
  | none => none
  | some rest =>
    match readJsonStringChars rest with
    | none => none
    | some (content, rem) => if rem = ['\x7d'] then some ⟨content⟩ else none

/-- A response envelope with every optional field absent. -/
def emptyVaultResponse (D : Type) : VaultResponse D := ⟨none, none, none, none, none, none, none⟩

/-- Claim C1, counterexample: with its (single) host unreachable — i.e. every
host the client holds exhausted without a connection — a send surfaces the
converted reqwest connection error, not `TransportError::AllHostsUnreachable`;
no host list or failover walk exists in the client. -/
theorem C1_counterexample :
    (VaultClient.get (⟨"http://host-1:8200", "token", none⟩ : VaultClient Unit)
        "/v1/secret/foo" none (fun _ => ConnResult.refused)).1
      = Except.error (Error.Reqwest ReqwestError.connectionFailed) ∧
    (Except.error (Error.Reqwest ReqwestError.connectionFailed) :
        Except Error HttpResponse) ≠ Except.error Error.AllHostsUnreachable :=
  ⟨rfl, by decide⟩

/-- Claim C1, amended: each client holds exactly one host URL, fixed at
construction; every transport helper (`get`, `post`, `put`, `delete`, `list`)
issues exactly one request against that host and returns: the response on a
2xx status, `Error::Vault` with status and body on any other status (no
retry), and the converted connection error on a connection failure — there is
no multi-host failover and no `AllHostsUnreachable`. -/
theorem C1_single_host_transport {T : Type} (c : VaultClient T) (endpoint : String)
    (wrap_ttl : Option String) (body : Option String) (net : Network) :
    ((∀ r, net r = ConnResult.refused) →
      (VaultClient.get c endpoint wrap_ttl net).1
          = Except.error (Error.Reqwest ReqwestError.connectionFailed) ∧
      (VaultClient.post c endpoint body wrap_ttl net).1
          = Except.error (Error.Reqwest ReqwestError.connectionFailed) ∧
      (VaultClient.put c endpoint body wrap_ttl net).1
          = Except.error (Error.Reqwest ReqwestError.connectionFailed) ∧
      (VaultClient.delete c endpoint net).1
          = Except.error (Error.Reqwest ReqwestError.connectionFailed) ∧
      (VaultClient.list c endpoint body wrap_ttl net).1
          = Except.error (Error.Reqwest ReqwestError.connectionFailed)) ∧
    (∀ s b, (∀ r, net r = ConnResult.answered s b) → statusIsSuccess s = true →
      (VaultClient.get c endpoint wrap_ttl net).1 = Except.ok ⟨s, b⟩ ∧
      (VaultClient.post c endpoint body wrap_ttl net).1 = Except.ok ⟨s, b⟩ ∧
      (VaultClient.put c endpoint body wrap_ttl net).1 = Except.ok ⟨s, b⟩ ∧
      (VaultClient.delete c endpoint net).1 = Except.ok ⟨s, b⟩ ∧
      (VaultClient.list c endpoint body wrap_ttl net).1 = Except.ok ⟨s, b⟩) ∧
    (∀ s b, (∀ r, net r = ConnResult.answered s b) → statusIsSuccess s = false →
      (VaultClient.get c endpoint wrap_ttl net).1
          = Except.error (Error.Vault (vault_request_failed_msg s b)) ∧
      (VaultClient.post c endpoint body wrap_ttl net).1
          = Except.error (Error.Vault (vault_request_failed_msg s b)) ∧
      (VaultClient.put c endpoint body wrap_ttl net).1
          = Except.error (Error.Vault (vault_request_failed_msg s b)) ∧
      (VaultClient.delete c endpoint net).1
          = Except.error (Error.Vault (vault_request_failed_msg s b)) ∧
      (VaultClient.list c endpoint body wrap_ttl net).1
          = Except.error (Error.Vault (vault_request_failed_msg s b))) ∧
    ((VaultClient.get c endpoint wrap_ttl net).2.length = 1 ∧
      (VaultClient.post c endpoint body wrap_ttl net).2.length = 1 ∧
      (VaultClient.put c endpoint body wrap_ttl net).2.length = 1 ∧
      (VaultClient.delete c endpoint net).2.length = 1 ∧
      (VaultClient.list c endpoint body wrap_ttl net).2.length = 1) := by
  refine ⟨?_, ?_, ?_, ?_⟩
  · intro hnet
    refine ⟨?_, ?_, ?_, ?_, ?_⟩ <;>
      cases wrap_ttl <;>
        simp [VaultClient.get, VaultClient.post, VaultClient.put, VaultClient.delete,
          VaultClient.list, sendReq, handle_hyper_response, hnet]
  · intro s b hnet hs
    refine ⟨?_, ?_, ?_, ?_, ?_⟩ <;>
      cases wrap_ttl <;>
        simp [VaultClient.get, VaultClient.post, VaultClient.put, VaultClient.delete,
          VaultClient.list, sendReq, handle_hyper_response, hnet, hs]
  · intro s b hnet hs
    refine ⟨?_, ?_, ?_, ?_, ?_⟩ <;>
      cases wrap_ttl <;>
        simp [VaultClient.get, VaultClient.post, VaultClient.put, VaultClient.delete,
          VaultClient.list, sendReq, handle_hyper_response, hnet, hs]
  · refine ⟨?_, ?_, ?_, ?_, ?_⟩ <;>
      cases wrap_ttl <;>
        simp [VaultClient.get, VaultClient.post, VaultClient.put, VaultClient.delete,
          VaultClient.list]

/-- Claim C1, witness: the three transport scenarios at concrete inputs. -/
theorem C1_witness :
    (VaultClient.get (⟨"http://host-1:8200", "token", none⟩ : VaultClient Unit) "/v1/x" none
        (fun _ => ConnResult.refused)).1
      = Except.error (Error.Reqwest ReqwestError.connectionFailed) ∧
    (VaultClient.get (⟨"http://host-1:8200", "token", none⟩ : VaultClient Unit) "/v1/x" none
        (fun _ => ConnResult.answered 200 "body")).1 = Except.ok ⟨200, "body"⟩ ∧
    (VaultClient.get (⟨"http://host-1:8200", "token", none⟩ : VaultClient Unit) "/v1/x" none
        (fun _ => ConnResult.answered 500 "boom")).1
      = Except.error (Error.Vault (vault_request_failed_msg 500 "boom")) :=
  ⟨((C1_single_host_transport (⟨"http://host-1:8200", "token", none⟩ : VaultClient Unit)
      "/v1/x" none none (fun _ => ConnResult.refused)).1 (fun _ => rfl)).1,
   ((C1_single_host_transport (⟨"http://host-1:8200", "token", none⟩ : VaultClient Unit)
      "/v1/x" none none (fun _ => ConnResult.answered 200 "body")).2.1 200 "body"
      (fun _ => rfl) rfl).1,
   ((C1_single_host_transport (⟨"http://host-1:8200", "token", none⟩ : VaultClient Unit)
      "/v1/x" none none (fun _ => ConnResult.answered 500 "boom")).2.2.1 500 "boom"
      (fun _ => rfl) rfl).1⟩

/-- Claim C2, counterexample: a 403 received during construction (the
lookup-self round-trip of `VaultClient::new`) yields `Error::Vault` carrying
the status and body, not `Error::Forbidden`. -/
theorem C2_counterexample :
    (VaultClient.new "http://host-1:8200" "token" (fun _ => Except.error "unused")
        (fun _ => ConnResult.answered 403 "permission denied")).1
      = Except.error (Error.Vault (vault_request_failed_msg 403 "permission denied")) ∧
    (VaultClient.new "http://host-1:8200" "token" (fun _ => Except.error "unused")
        (fun _ => ConnResult.answered 403 "permission denied")).1
      ≠ Except.error Error.Forbidden :=
  ⟨rfl, by decide⟩

/-- Claim C2, amended: a 2xx response passes through as success; every non-2xx
response — including a 403 during construction's self-lookup — yields
`Error::Vault` carrying the status and the eagerly read body text, and is
never retried (construction issues exactly one request); a connection-level
error surfaces as the converted reqwest error. -/
theorem C2_status_contract (s : Nat) (b : String) (e : ReqwestError) (host : Url)
    (token : String) (dec : Decoder (VaultResponse TokenData)) (net : Network) :
    (statusIsSuccess s = true →
      handle_hyper_response (Except.ok ⟨s, b⟩) = Except.ok ⟨s, b⟩) ∧
    (statusIsSuccess s = false →
      handle_hyper_response (Except.ok ⟨s, b⟩)
        = Except.error (Error.Vault (vault_request_failed_msg s b))) ∧
    handle_hyper_response (Except.error e) = Except.error (Error.Reqwest e) ∧
    ((∀ r, net r = ConnResult.answered s b) → statusIsSuccess s = false →
      (VaultClient.new host token dec net).1
          = Except.error (Error.Vault (vault_request_failed_msg s b)) ∧
      (VaultClient.new host token dec net).2.length = 1) ∧
    ((∀ r, net r = ConnResult.answered s b) → statusIsSuccess s = true →
      ∀ env, dec b = Except.ok env →
        (VaultClient.new host token dec net).1
          = Except.ok (⟨host, token, some env⟩ : VaultClient TokenData)) := by
  refine ⟨?_, ?_, ?_, ?_, ?_⟩
  · intro hs
    simp [handle_hyper_response, hs]
  · intro hs
    simp [handle_hyper_response, hs]
  · rfl
  · intro hnet hs
    constructor
    · simp [VaultClient.new, sendReq, handle_hyper_response, hnet, hs]
    · rfl
  · intro hnet hs env hdec
    simp [VaultClient.new, sendReq, handle_hyper_response, parse_vault_response, hnet, hs, hdec]

/-- Claim C2, witness: the status contract at concrete responses. -/
theorem C2_witness :
    handle_hyper_response (Except.ok ⟨204, ""⟩) = Except.ok ⟨204, ""⟩ ∧
    handle_hyper_response (Except.ok ⟨403, "denied"⟩)
      = Except.error (Error.Vault (vault_request_failed_msg 403 "denied")) ∧
    (VaultClient.new "http://host-1:8200" "token" (fun _ => Except.error "unused")
        (fun _ => ConnResult.answered 403 "denied")).1
      = Except.error (Error.Vault (vault_request_failed_msg 403 "denied")) :=
  ⟨(C2_status_contract 204 "" ReqwestError.connectionFailed "http://host-1:8200" "token"
      (fun _ => Except.error "unused") (fun _ => ConnResult.answered 204 "")).1 rfl,
   (C2_status_contract 403 "denied" ReqwestError.connectionFailed "http://host-1:8200" "token"
      (fun _ => Except.error "unused") (fun _ => ConnResult.answered 403 "denied")).2.1 rfl,
   ((C2_status_contract 403 "denied" ReqwestError.connectionFailed "http://host-1:8200" "token"
      (fun _ => Except.error "unused")
      (fun _ => ConnResult.answered 403 "denied")).2.2.2.1 (fun _ => rfl) rfl).1⟩

/-- Claim C3, counterexample: the duration wire round-trip fails on a duration
with a sub-second component — one nanosecond encodes as zero seconds and
decodes as the zero duration, not the original value. -/
theorem C3_counterexample :
    decode_duration_seconds (encode_duration_seconds ⟨⟨0, 1⟩⟩) = ⟨⟨0, 0⟩⟩ ∧
    decode_duration_seconds (encode_duration_seconds ⟨⟨0, 1⟩⟩) ≠ ⟨⟨0, 1⟩⟩ :=
  ⟨rfl, by decide⟩

/-- Claim C3, amended: for every duration without a sub-second component — in
particular everything built by the library's seconds/minutes/hours/days
constructors — decoding the wire encoding returns the original value. -/
theorem C3_roundtrip_whole_seconds (d : VaultDuration) (h : d.dur.nanos = 0) :
    decode_duration_seconds (encode_duration_seconds d) = d := by
  obtain ⟨⟨s, n⟩⟩ := d
  have hn : n = 0 := h
  subst hn
  rfl

/-- Claim C3, witness: the round-trip at one day. -/
theorem C3_witness :
    decode_duration_seconds (encode_duration_seconds (VaultDuration.days 1))
      = VaultDuration.days 1 :=
  C3_roundtrip_whole_seconds (VaultDuration.days 1) rfl

/-- Claim C4: for every call through the verb dispatcher `call_endpoint`, a
zero-length 2xx response body yields `EndpointResponse::Empty` (not a decode
error), and a nonempty body whose envelope decode succeeds yields the
`VaultResponse` variant. -/
theorem C4_empty_body_dispatch {T D : Type} (c : VaultClient T)
    (dec : Decoder (VaultResponse D)) (verb : HttpVerb) (endpoint : String)
    (wrap_ttl : Option String) (body : Option String) (net : Network) (s : Nat) (bd : String)
    (hnet : ∀ r, net r = ConnResult.answered s bd) (hs : statusIsSuccess s = true) :
    (bd = "" →
      (VaultClient.call_endpoint c dec verb endpoint wrap_ttl body net).1
        = Except.ok EndpointResponse.Empty) ∧
    (∀ env, dec bd = Except.ok env → bd ≠ "" →
      (VaultClient.call_endpoint c dec verb endpoint wrap_ttl body net).1
        = Except.ok (EndpointResponse.VaultResponse env)) := by
  constructor
  · intro hbd
    subst hbd
    cases verb <;> cases wrap_ttl <;>
      simp [VaultClient.call_endpoint, VaultClient.get, VaultClient.post, VaultClient.put,
        VaultClient.delete, VaultClient.list, sendReq, handle_hyper_response,
        parse_endpoint_response, hnet, hs]
  · intro env hdec hbd
    cases verb <;> cases wrap_ttl <;>
      simp [VaultClient.call_endpoint, VaultClient.get, VaultClient.post, VaultClient.put,
        VaultClient.delete, VaultClient.list, sendReq, handle_hyper_response,
        parse_endpoint_response, hnet, hs, hdec, hbd]

/-- Claim C4, witness: an empty DELETE body and a decoded GET envelope. -/
theorem C4_witness :
    (VaultClient.call_endpoint (⟨"http://host-1:8200", "token", none⟩ : VaultClient Unit)
        (fun str => if str = "\x7b\x7d" then Except.ok (emptyVaultResponse Unit)
                    else Except.error "bad")
        HttpVerb.DELETE "secret/foo" none none (fun _ => ConnResult.answered 204 "")).1
      = Except.ok EndpointResponse.Empty ∧
    (VaultClient.call_endpoint (⟨"http://host-1:8200", "token", none⟩ : VaultClient Unit)
        (fun str => if str = "\x7b\x7d" then Except.ok (emptyVaultResponse Unit)
                    else Except.error "bad")
        HttpVerb.GET "secret/foo" none none (fun _ => ConnResult.answered 200 "\x7b\x7d")).1
      = Except.ok (EndpointResponse.VaultResponse (emptyVaultResponse Unit)) :=
  ⟨(C4_empty_body_dispatch (⟨"http://host-1:8200", "token", none⟩ : VaultClient Unit)
      (fun str => if str = "\x7b\x7d" then Except.ok (emptyVaultResponse Unit)
                  else Except.error "bad")
      HttpVerb.DELETE "secret/foo" none none (fun _ => ConnResult.answered 204 "") 204 ""
      (fun _ => rfl) rfl).1 rfl,
   (C4_empty_body_dispatch (⟨"http://host-1:8200", "token", none⟩ : VaultClient Unit)
      (fun str => if str = "\x7b\x7d" then Except.ok (emptyVaultResponse Unit)
                  else Except.error "bad")
      HttpVerb.GET "secret/foo" none none (fun _ => ConnResult.answered 200 "\x7b\x7d") 200
      "\x7b\x7d" (fun _ => rfl) rfl).2 (emptyVaultResponse Unit) (by decide) (by decide)⟩

/-- Claim C5, counterexample: on a ciphertext carrying the version prefix
twice, the code strips both copies (`trim_left_matches` removes all leading
matches) and succeeds, while the claim's strip-one-prefix reading
(`transit_encrypt_response_spec`) base64-rejects the remainder — so the code's
result differs from the claimed one. -/
theorem C5_counterexample :
    (VaultClient.transit_encrypt (⟨"http://host-1:8200", "token", none⟩ : VaultClient Unit)
        none "key" []
        (fun _ => Except.ok ⟨none, none, none, some ⟨"vault:v1:vault:v1:QQ=="⟩,
                             none, none, none⟩)
        (fun _ => ConnResult.answered 200 "ignored")).1
      = Except.ok [65] ∧
    transit_encrypt_response_spec "vault:v1:vault:v1:QQ=="
      = Except.error (Error.Base64 Base64Error.InvalidByte) ∧
    (Except.ok [65] : Except Error (List Nat))
      ≠ Except.error (Error.Base64 Base64Error.InvalidByte) := by
  refine ⟨by decide, by decide, by decide⟩

/-- Claim C5, amended: `transit_encrypt` base64-encodes the payload into the
POSTed body; if the returned ciphertext does not start with `vault:v1:` it
fails with `Error::Vault`, otherwise all leading copies of the prefix are
stripped (`trim_left_matches` semantics) and the remainder base64-decoded into
the returned bytes.  `transit_decrypt` is the mirror: the input bytes are
base64-encoded with the prefix prepended into the sent body, and the returned
plaintext field is base64-decoded directly with no prefix handling. -/
theorem C5_transit_framing {T : Type} (c : VaultClient T) (mountpoint : Option String)
    (key : String) (pt ct : List Nat) (dece : Decoder (VaultResponse TransitEncryptedData))
    (decd : Decoder (VaultResponse TransitDecryptedData)) (net : Network) (s : Nat)
    (bd : String) (hnet : ∀ r, net r = ConnResult.answered s bd)
    (hs : statusIsSuccess s = true) :
    (VaultClient.transit_encrypt c mountpoint key pt dece net).2
      = [⟨Method.Post,
          Url.join c.host ("/v1/" ++ mountpoint.getD "transit" ++ "/encrypt/" ++ key),
          [("X-Vault-Token", c.token), ("Content-Type", "application/json")],
          "\x7b\"plaintext\": \"" ++ base64encode pt ++ "\"\x7d"⟩] ∧
    (VaultClient.transit_decrypt c mountpoint key ct decd net).2
      = [⟨Method.Post,
          Url.join c.host ("/v1/" ++ mountpoint.getD "transit" ++ "/decrypt/" ++ key),
          [("X-Vault-Token", c.token), ("Content-Type", "application/json")],
          "\x7b\"ciphertext\": \"" ++ ("vault:v1:" ++ base64encode ct) ++ "\"\x7d"⟩] ∧
    (∀ env d, dece bd = Except.ok env → env.data = some d →
      (startsWithStr d.ciphertext "vault:v1:" = false →
        (VaultClient.transit_encrypt c mountpoint key pt dece net).1
          = Except.error
              (Error.Vault ("Unrecognized ciphertext format: `" ++ d.ciphertext ++ "`"))) ∧
      (startsWithStr d.ciphertext "vault:v1:" = true →
        (∀ bytes, base64decode (trim_left_matches d.ciphertext "vault:v1:") = Except.ok bytes →
          (VaultClient.transit_encrypt c mountpoint key pt dece net).1 = Except.ok bytes) ∧
        (∀ e, base64decode (trim_left_matches d.ciphertext "vault:v1:") = Except.error e →
          (VaultClient.transit_encrypt c mountpoint key pt dece net).1
            = Except.error (Error.Base64 e)))) ∧
    (∀ env d, decd bd = Except.ok env → env.data = some d →
      (∀ bytes, base64decode d.plaintext = Except.ok bytes →
        (VaultClient.transit_decrypt c mountpoint key ct decd net).1 = Except.ok bytes) ∧
      (∀ e, base64decode d.plaintext = Except.error e →
        (VaultClient.transit_decrypt c mountpoint key ct decd net).1
          = Except.error (Error.Base64 e))) := by
  refine ⟨rfl, rfl, ?_, ?_⟩
  · intro env d hdec hd
    constructor
    · intro hstart
      simp [VaultClient.transit_encrypt, VaultClient.post, sendReq, handle_hyper_response,
        parse_vault_response, hnet, hs, hdec, hd, hstart]
    · intro hstart
      constructor
      · intro bytes hb
        simp [VaultClient.transit_encrypt, VaultClient.post, sendReq, handle_hyper_response,
          parse_vault_response, hnet, hs, hdec, hd, hstart, hb]
      · intro e he
        simp [VaultClient.transit_encrypt, VaultClient.post, sendReq, handle_hyper_response,
          parse_vault_response, hnet, hs, hdec, hd, hstart, he]
  · intro env d hdec hd
    constructor
    · intro bytes hb
      simp [VaultClient.transit_decrypt, VaultClient.post, sendReq, handle_hyper_response,
        parse_vault_response, hnet, hs, hdec, hd, hb]
    · intro e he
      simp [VaultClient.transit_decrypt, VaultClient.post, sendReq, handle_hyper_response,
        parse_vault_response, hnet, hs, hdec, hd, he]

/-- Claim C5, witness: a properly prefixed ciphertext decodes to its byte, and
a decrypt response plaintext is base64-decoded directly. -/
theorem C5_witness :
    (VaultClient.transit_encrypt (⟨"http://host-1:8200", "token", none⟩ : VaultClient Unit)
        none "key" [65]
        (fun _ => Except.ok ⟨none, none, none, some ⟨"vault:v1:QQ=="⟩, none, none, none⟩)
        (fun _ => ConnResult.answered 200 "\x7b\x7d")).1
      = Except.ok [65] ∧
    (VaultClient.transit_decrypt (⟨"http://host-1:8200", "token", none⟩ : VaultClient Unit)
        none "key" [65]
        (fun _ => Except.ok ⟨none, none, none, some ⟨"QQ=="⟩, none, none, none⟩)
        (fun _ => ConnResult.answered 200 "\x7b\x7d")).1
      = Except.ok [65] := by
  constructor
  · exact (((C5_transit_framing (⟨"http://host-1:8200", "token", none⟩ : VaultClient Unit)
      none "key" [65] [65]
      (fun _ => Except.ok ⟨none, none, none, some ⟨"vault:v1:QQ=="⟩, none, none, none⟩)
      (fun _ => Except.ok ⟨none, none, none, some ⟨"QQ=="⟩, none, none, none⟩)
      (fun _ => ConnResult.answered 200 "\x7b\x7d") 200 "\x7b\x7d" (fun _ => rfl)
      rfl).2.2.1 ⟨none, none, none, some ⟨"vault:v1:QQ=="⟩, none, none, none⟩
      ⟨"vault:v1:QQ=="⟩ rfl rfl).2 (by decide)).1 [65] (by decide)
  · exact ((C5_transit_framing (⟨"http://host-1:8200", "token", none⟩ : VaultClient Unit)
      none "key" [65] [65]
      (fun _ => Except.ok ⟨none, none, none, some ⟨"vault:v1:QQ=="⟩, none, none, none⟩)
      (fun _ => Except.ok ⟨none, none, none, some ⟨"QQ=="⟩, none, none, none⟩)
      (fun _ => ConnResult.answered 200 "\x7b\x7d") 200 "\x7b\x7d" (fun _ => rfl)
      rfl).2.2.2 ⟨none, none, none, some ⟨"QQ=="⟩, none, none, none⟩
      ⟨"QQ=="⟩ rfl rfl).1 [65] (by decide)

/-- Claim C6, counterexample: the lookup-self request built during
`VaultClient::new` carries only the bearer-token header — no JSON content-type
header — so not every outgoing request built by the client carries both. -/
theorem C6_counterexample :
    (VaultClient.new "http://host-1:8200" "token" (fun _ => Except.error "unused")
        (fun _ => ConnResult.refused)).2
      = [⟨Method.Get, "http://host-1:8200/v1/auth/token/lookup-self",
          [("X-Vault-Token", "token")], ""⟩] ∧
    ("Content-Type", "application/json") ∉
      (⟨Method.Get, "http://host-1:8200/v1/auth/token/lookup-self",
        [("X-Vault-Token", "token")], ""⟩ : Request).headers :=
  ⟨rfl, by decide⟩

/-- Claim C6, amended: every request issued through the client's verb helpers
(`get`, `post`, `put`, `delete`, `list`) carries the bearer-token header and
the JSON content-type header, and carries the wrap-TTL header exactly when a
wrap TTL was supplied; the lookup-self request `new` issues during
construction carries only the bearer-token header. -/
theorem C6_request_headers {T : Type} (c : VaultClient T) (endpoint w bodyStr : String)
    (net : Network) (host token : String) (dec : Decoder (VaultResponse TokenData)) :
    (VaultClient.get c endpoint none net).2
      = [⟨Method.Get, Url.join c.host endpoint,
          [("X-Vault-Token", c.token), ("Content-Type", "application/json")], ""⟩] ∧
    (VaultClient.get c endpoint (some w) net).2
      = [⟨Method.Get, Url.join c.host endpoint,
          [("X-Vault-Token", c.token), ("Content-Type", "application/json"),
           ("X-Vault-Wrap-TTL", w)], ""⟩] ∧
    (VaultClient.post c endpoint none none net).2
      = [⟨Method.Post, Url.join c.host endpoint,
          [("X-Vault-Token", c.token), ("Content-Type", "application/json")], ""⟩] ∧
    (VaultClient.post c endpoint (some bodyStr) none net).2
      = [⟨Method.Post, Url.join c.host endpoint,
          [("X-Vault-Token", c.token), ("Content-Type", "application/json")], bodyStr⟩] ∧
    (VaultClient.post c endpoint none (some w) net).2
      = [⟨Method.Post, Url.join c.host endpoint,
          [("X-Vault-Token", c.token), ("Content-Type", "application/json"),
           ("X-Vault-Wrap-TTL", w)], ""⟩] ∧
    (VaultClient.post c endpoint (some bodyStr) (some w) net).2
      = [⟨Method.Post, Url.join c.host endpoint,
          [("X-Vault-Token", c.token), ("Content-Type", "application/json"),
           ("X-Vault-Wrap-TTL", w)], bodyStr⟩] ∧
    (VaultClient.put c endpoint none none net).2
      = [⟨Method.Put, Url.join c.host endpoint,
          [("X-Vault-Token", c.token), ("Content-Type", "application/json")], ""⟩] ∧
    (VaultClient.put c endpoint (some bodyStr) none net).2
      = [⟨Method.Put, Url.join c.host endpoint,
          [("X-Vault-Token", c.token), ("Content-Type", "application/json")], bodyStr⟩] ∧
    (VaultClient.put c endpoint none (some w) net).2
      = [⟨Method.Put, Url.join c.host endpoint,
          [("X-Vault-Token", c.token), ("Content-Type", "application/json"),
           ("X-Vault-Wrap-TTL", w)], ""⟩] ∧
    (VaultClient.put c endpoint (some bodyStr) (some w) net).2
      = [⟨Method.Put, Url.join c.host endpoint,
          [("X-Vault-Token", c.token), ("Content-Type", "application/json"),
           ("X-Vault-Wrap-TTL", w)], bodyStr⟩] ∧
    (VaultClient.list c endpoint none none net).2
      = [⟨Method.Extension "LIST", Url.join c.host endpoint,
          [("X-Vault-Token", c.token), ("Content-Type", "application/json")], ""⟩] ∧
    (VaultClient.list c endpoint (some bodyStr) none net).2
      = [⟨Method.Extension "LIST", Url.join c.host endpoint,
          [("X-Vault-Token", c.token), ("Content-Type", "application/json")], bodyStr⟩] ∧
    (VaultClient.list c endpoint none (some w) net).2
      = [⟨Method.Extension "LIST", Url.join c.host endpoint,
          [("X-Vault-Token", c.token), ("Content-Type", "application/json"),
           ("X-Vault-Wrap-TTL", w)], ""⟩] ∧
    (VaultClient.list c endpoint (some bodyStr) (some w) net).2
      = [⟨Method.Extension "LIST", Url.join c.host endpoint,
          [("X-Vault-Token", c.token), ("Content-Type", "application/json"),
           ("X-Vault-Wrap-TTL", w)], bodyStr⟩] ∧
    (VaultClient.delete c endpoint net).2
      = [⟨Method.Delete, Url.join c.host endpoint,
          [("X-Vault-Token", c.token), ("Content-Type", "application/json")], ""⟩] ∧
    (VaultClient.new host token dec net).2
      = [⟨Method.Get, Url.join host "/v1/auth/token/lookup-self",
          [("X-Vault-Token", token)], ""⟩] :=
  ⟨rfl, rfl, rfl, rfl, rfl, rfl, rfl, rfl, rfl, rfl, rfl, rfl, rfl, rfl, rfl, rfl⟩

/-- Claim C7, counterexample: when the decoded envelope of a wrap-TTL request
has no `wrap_info`, `get_wrapping_token_for_endpoint` fails with
`Error::Vault`, not with an `Error::MissingWrapInfo` variant. -/
theorem C7_counterexample :
    (VaultClient.get_wrapping_token_for_endpoint
        (⟨"http://host-1:8200", "token", none⟩ : VaultClient Unit)
        (fun _ => Except.ok (emptyVaultResponse Unit)) HttpVerb.POST "sys/x" "60s" none
        (fun _ => ConnResult.answered 200 "\x7b\x7d")).1
      = Except.error (Error.Vault "wrap_info is missing in response") ∧
    (VaultClient.get_wrapping_token_for_endpoint
        (⟨"http://host-1:8200", "token", none⟩ : VaultClient Unit)
        (fun _ => Except.ok (emptyVaultResponse Unit)) HttpVerb.POST "sys/x" "60s" none
        (fun _ => ConnResult.answered 200 "\x7b\x7d")).1
      ≠ Except.error Error.MissingWrapInfo :=
  ⟨by decide, by decide⟩

/-- Claim C7, amended: for a request issued with a wrap TTL through
`get_wrapping_token_for_endpoint`, a decoded envelope without `wrap_info`
fails with `Error::Vault` noting the missing `wrap_info` (the protocol
violation is surfaced, not silently ignored); when `wrap_info` is present its
single-use token is returned. -/
theorem C7_wrap_token_extraction {T : Type} (c : VaultClient T)
    (dec : Decoder (VaultResponse Unit)) (verb : HttpVerb) (endpoint wrap_ttl : String)
    (body : Option String) (net : Network) (s : Nat) (bd : String)
    (env : VaultResponse Unit) (hnet : ∀ r, net r = ConnResult.answered s bd)
    (hs : statusIsSuccess s = true) :
    (∀ wi, bd ≠ "" → dec bd = Except.ok env → env.wrap_info = some wi →
      (VaultClient.get_wrapping_token_for_endpoint c dec verb endpoint wrap_ttl body net).1
        = Except.ok wi.token) ∧
    (bd ≠ "" → dec bd = Except.ok env → env.wrap_info = none →
      (VaultClient.get_wrapping_token_for_endpoint c dec verb endpoint wrap_ttl body net).1
        = Except.error (Error.Vault "wrap_info is missing in response")) ∧
    (bd = "" →
      (VaultClient.get_wrapping_token_for_endpoint c dec verb endpoint wrap_ttl body net).1
        = Except.error (Error.Vault "Received an empty response")) := by
  refine ⟨?_, ?_, ?_⟩
  · intro wi hbd hdec hwi
    cases verb <;>
      simp [VaultClient.get_wrapping_token_for_endpoint, VaultClient.call_endpoint,
        VaultClient.get, VaultClient.post, VaultClient.put, VaultClient.delete,
        VaultClient.list, sendReq, handle_hyper_response, parse_endpoint_response,
        hnet, hs, hbd, hdec, hwi]
  · intro hbd hdec hwi
    cases verb <;>
      simp [VaultClient.get_wrapping_token_for_endpoint, VaultClient.call_endpoint,
        VaultClient.get, VaultClient.post, VaultClient.put, VaultClient.delete,
        VaultClient.list, sendReq, handle_hyper_response, parse_endpoint_response,
        hnet, hs, hbd, hdec, hwi]
  · intro hbd
    subst hbd
    cases verb <;>
      simp [VaultClient.get_wrapping_token_for_endpoint, VaultClient.call_endpoint,
        VaultClient.get, VaultClient.post, VaultClient.put, VaultClient.delete,
        VaultClient.list, sendReq, handle_hyper_response, parse_endpoint_response,
        hnet, hs]

/-- Claim C7, witness: a present `wrap_info` yields its token, and an empty
response body yields the empty-response `Error::Vault`. -/
theorem C7_witness :
    (VaultClient.get_wrapping_token_for_endpoint
        (⟨"http://host-1:8200", "token", none⟩ : VaultClient Unit)
        (fun _ => Except.ok ⟨none, none, none, none, none, none,
          some ⟨VaultDuration.seconds 60, "wrap-token", ⟨0, 0⟩, none⟩⟩)
        HttpVerb.POST "sys/x" "60s" none
        (fun _ => ConnResult.answered 200 "\x7b\x7d")).1
      = Except.ok "wrap-token" ∧
    (VaultClient.get_wrapping_token_for_endpoint
        (⟨"http://host-1:8200", "token", none⟩ : VaultClient Unit)
        (fun _ => Except.ok (emptyVaultResponse Unit)) HttpVerb.POST "sys/x" "60s" none
        (fun _ => ConnResult.answered 204 "")).1
      = Except.error (Error.Vault "Received an empty response") :=
  ⟨(C7_wrap_token_extraction (⟨"http://host-1:8200", "token", none⟩ : VaultClient Unit)
      (fun _ => Except.ok ⟨none, none, none, none, none, none,
        some ⟨VaultDuration.seconds 60, "wrap-token", ⟨0, 0⟩, none⟩⟩)
      HttpVerb.POST "sys/x" "60s" none (fun _ => ConnResult.answered 200 "\x7b\x7d")
      200 "\x7b\x7d" ⟨none, none, none, none, none, none,
        some ⟨VaultDuration.seconds 60, "wrap-token", ⟨0, 0⟩, none⟩⟩
      (fun _ => rfl) rfl).1
    ⟨VaultDuration.seconds 60, "wrap-token", ⟨0, 0⟩, none⟩ (by decide) rfl rfl,
   (C7_wrap_token_extraction (⟨"http://host-1:8200", "token", none⟩ : VaultClient Unit)
      (fun _ => Except.ok (emptyVaultResponse Unit)) HttpVerb.POST "sys/x" "60s" none
      (fun _ => ConnResult.answered 204 "") 204 "" (emptyVaultResponse Unit)
      (fun _ => rfl) rfl).2.2 rfl⟩

/-- Claim C8: `new_no_lookup` stores the host and token, leaves the cached
data absent, and returns successfully having issued no network request at all,
whereas token-based construction (`new`) always issues the lookup-self call. -/
theorem C8_no_lookup_no_network (host : Url) (token : String) :
    VaultClient.new_no_lookup host token
      = (Except.ok (⟨host, token, none⟩ : VaultClient Unit), ([] : List Request)) ∧
    ∀ (dec : Decoder (VaultResponse TokenData)) (net : Network),
      (VaultClient.new host token dec net).2
        = [⟨Method.Get, Url.join host "/v1/auth/token/lookup-self",
            [("X-Vault-Token", token)], ""⟩] :=
  ⟨rfl, fun _ _ => rfl⟩

/-- Helper for claim C9: on input without a newline, the character-level
`replace` is the identity. -/
theorem escapeChars_eq_self (l : List Char) (h : '\n' ∉ l) : escapeChars l = l := by
  induction l with
  | nil => rfl
  | cons ch rest ih =>
    rw [List.mem_cons, not_or] at h
    simp [escapeChars, Ne.symm h.1, ih h.2]

/-- Claim C9: `set_secret` sends the value spliced into the `value` JSON
template after replacing only newlines with backslash-n; every other character
— including quotes and backslashes — is embedded verbatim, so for a value
containing a double quote the sent body is not a valid JSON encoding of the
value (the reference template decoder rejects it), while a newline-only
special character round-trips fine. -/
theorem C9_set_secret_body {T : Type} (c : VaultClient T) (key value : String)
    (net : Network) :
    (VaultClient.set_secret c key value net).2
      = [⟨Method.Post, Url.join c.host ("/v1/secret/" ++ key),
          [("X-Vault-Token", c.token), ("Content-Type", "application/json")],
          "\x7b\"value\": \"" ++ VaultClient.escape c value ++ "\"\x7d"⟩] ∧
    ('\n' ∉ value.data → VaultClient.escape c value = value) ∧
    VaultClient.escape c "a\nb" = "a\\nb" ∧
    parseSecretBody ("\x7b\"value\": \""
        ++ VaultClient.escape (⟨"h", "t", none⟩ : VaultClient Unit) "a\"b" ++ "\"\x7d")
      ≠ some "a\"b" ∧
    parseSecretBody ("\x7b\"value\": \""
        ++ VaultClient.escape (⟨"h", "t", none⟩ : VaultClient Unit) "hello\nworld" ++ "\"\x7d")
      = some "hello\nworld" := by
  refine ⟨rfl, ?_, rfl, by decide, by decide⟩
  intro h
  show (⟨escapeChars value.data⟩ : String) = value
  rw [escapeChars_eq_self value.data h]

/-- Claim C9, witness: a value with quote and backslash but no newline passes
through `escape` verbatim. -/
theorem C9_witness :
    VaultClient.escape (⟨"http://host-1:8200", "token", none⟩ : VaultClient Unit)
        "a\"b\\c" = "a\"b\\c" :=
  (C9_set_secret_body (⟨"http://host-1:8200", "token", none⟩ : VaultClient Unit)
      "key" "a\"b\\c" (fun _ => ConnResult.refused)).2.1 (by decide)

/-- Claim C10: given a successful renewal response, `renew` returns success,
keeps the host and token, and changes at most the `auth` field of the cached
data (the record update leaves every other cached field unchanged); when the
cached data is absent — as after `new_no_lookup` — the response's auth block is
discarded and the client state is unchanged. -/
theorem C10_renew_frame {T : Type} (c : VaultClient T) (dec : Decoder (VaultResponse T))
    (net : Network) (s : Nat) (bd : String) (resp : VaultResponse T)
    (hnet : ∀ r, net r = ConnResult.answered s bd) (hs : statusIsSuccess s = true)
    (hdec : dec bd = Except.ok resp) :
    (VaultClient.renew c dec net).1 = Except.ok () ∧
    (VaultClient.renew c dec net).2.1.host = c.host ∧
    (VaultClient.renew c dec net).2.1.token = c.token ∧
    (VaultClient.renew c dec net).2.1.data
      = c.data.map (fun d => { d with auth := resp.auth }) ∧
    (c.data = none → (VaultClient.renew c dec net).2.1 = c) := by
  refine ⟨?_, ?_, ?_, ?_, ?_⟩
  · cases hc : c.data <;>
      simp [VaultClient.renew, VaultClient.post, sendReq, handle_hyper_response,
        parse_vault_response, hnet, hs, hdec, hc]
  · cases hc : c.data <;>
      simp [VaultClient.renew, VaultClient.post, sendReq, handle_hyper_response,
        parse_vault_response, hnet, hs, hdec, hc]
  · cases hc : c.data <;>
      simp [VaultClient.renew, VaultClient.post, sendReq, handle_hyper_response,
        parse_vault_response, hnet, hs, hdec, hc]
  · cases hc : c.data <;>
      simp [VaultClient.renew, VaultClient.post, sendReq, handle_hyper_response,
        parse_vault_response, hnet, hs, hdec, hc]
  · intro hc
    simp [VaultClient.renew, VaultClient.post, sendReq, handle_hyper_response,
      parse_vault_response, hnet, hs, hdec, hc]

/-- Claim C10, witness: renewing a client with cached data replaces exactly the
auth field; the host and token are untouched. -/
theorem C10_witness :
    (VaultClient.renew (⟨"http://host-1:8200", "token",
        some (emptyVaultResponse Unit)⟩ : VaultClient Unit)
      (fun _ => Except.ok ⟨none, none, none, none, none,
        some ⟨"client-token", none, [], none, none, false⟩, none⟩)
      (fun _ => ConnResult.answered 200 "\x7b\x7d")).2.1.data
      = some ⟨none, none, none, none, none,
          some ⟨"client-token", none, [], none, none, false⟩, none⟩ :=
  ((C10_renew_frame (⟨"http://host-1:8200", "token",
        some (emptyVaultResponse Unit)⟩ : VaultClient Unit)
      (fun _ => Except.ok ⟨none, none, none, none, none,
        some ⟨"client-token", none, [], none, none, false⟩, none⟩)
      (fun _ => ConnResult.answered 200 "\x7b\x7d") 200 "\x7b\x7d"
      ⟨none, none, none, none, none,
        some ⟨"client-token", none, [], none, none, false⟩, none⟩
      (fun _ => rfl) rfl rfl).2.2.2.1).trans (by decide)
